import Mathlib

/-!
Verification of the `/api/call` request handler of the OpenAITokenTest
repository (`src/app.py`) against its natural-language specification.

The handler is shallowly embedded: the remote chat-completion provider is an
oracle parameter, the SQLAlchemy session is explicit state (a list of rows),
wall-clock readings are parameters, and Python falsiness of the JSON fields is
modelled on the typed request record.
-/

namespace AppPy

/-- One element of the `messages` array: a role/content pair. -/
structure Message where
  role : String
  content : String
deriving DecidableEq, Repr

/-- Characters matched by the character class of the regex in
`re.search(r'[\n\r]\x7b4,\x7d', reply)` (src/app.py line 112). -/
def isNl (c : Char) : Bool := c = '\n' || c = '\r'

/-- Left-to-right scan embedding the regex search for four or more consecutive
newline/carriage-return characters: `k` counts the newline characters
immediately preceding the current position. -/
def runScan : List Char → Nat → Bool
  | [], k => decide (4 ≤ k)
  | c :: rest, k =>
    if isNl c then runScan rest (k + 1)
    else decide (4 ≤ k) || runScan rest 0

/-- `re.search(r'[\n\r]\x7b4,\x7d', reply)` succeeds (src/app.py line 112). -/
def hasNewlineRun (s : String) : Bool := runScan s.data 0

/-- Lower-case hexadecimal digit, as produced by Python's `json.dumps` for
`\u00xx` escapes. -/
def hexDigitChar (n : Nat) : Char :=
  if n < 10 then Char.ofNat (48 + n) else Char.ofNat (87 + n)

/-- Escaping of one character by `json.dumps(..., ensure_ascii=False)`
(src/app.py line 117): only `"`, `\` and control characters below 0x20 are
escaped; everything else, in particular non-ASCII text, is kept literally. -/
def escChar (c : Char) : List Char :=
  if c = '"' then ['\\', '"']
  else if c = '\\' then ['\\', '\\']
  else if c = '\n' then ['\\', 'n']
  else if c = '\r' then ['\\', 'r']
  else if c = '\t' then ['\\', 't']
  else if c.toNat = 8 then ['\\', 'b']
  else if c.toNat = 12 then ['\\', 'f']
  else if c.toNat < 32 then
    ['\\', 'u', '0', '0', hexDigitChar (c.toNat / 16), hexDigitChar (c.toNat % 16)]
  else [c]

/-- Escape every character of a string body. -/
def escList : List Char → List Char
  | [] => []
  | c :: cs => escChar c ++ escList cs

/-- A JSON string literal as emitted by `json.dumps(..., ensure_ascii=False)`. -/
def encStr (s : String) : List Char := '"' :: (escList s.data ++ ['"'])

/-- One message object as emitted by `json.dumps` with its default separators:
`\x7b"role": <role>, "content": <content>\x7d`. -/
def encMsg (m : Message) : List Char :=
  '\x7b' :: '"' :: 'r' :: 'o' :: 'l' :: 'e' :: '"' :: ':' :: ' ' ::
    (encStr m.role ++ ',' :: ' ' :: '"' :: 'c' :: 'o' :: 'n' :: 't' :: 'e' :: 'n' :: 't' ::
      '"' :: ':' :: ' ' :: (encStr m.content ++ ['\x7d']))

/-- The comma-separated object list inside the brackets. -/
def encMsgsBody : List Message → List Char
  | [] => []
  | [m] => encMsg m
  | m :: m2 :: rest => encMsg m ++ ',' :: ' ' :: encMsgsBody (m2 :: rest)

/-- `json.dumps(messages, ensure_ascii=False)` (src/app.py line 117). -/
def encodeMessages (msgs : List Message) : String :=
  String.mk ('[' :: (encMsgsBody msgs ++ [']']))

/-- Numeric value of a hexadecimal digit character. -/
def hexVal (c : Char) : Option Nat :=
  if 48 ≤ c.toNat ∧ c.toNat ≤ 57 then some (c.toNat - 48)
  else if 97 ≤ c.toNat ∧ c.toNat ≤ 102 then some (c.toNat - 87)
  else if 65 ≤ c.toNat ∧ c.toNat ≤ 70 then some (c.toNat - 55)
  else none

/-- Modelled from the spec: JSON string-body decoding (the inverse direction of
the round-trip asserted by the spec; the repository itself never decodes).
Consumes the characters of a JSON string literal after its opening quote, up to
and including the closing quote, resolving escapes. -/
def escCode (e : Char) : Option Char :=
  if e = '"' then some '"'
  else if e = '\\' then some '\\'
  else if e = '/' then some '/'
  else if e = 'n' then some '\n'
  else if e = 'r' then some '\r'
  else if e = 't' then some '\t'
  else if e = 'b' then some '\x08'
  else if e = 'f' then some '\x0c'
  else none

def parseStrBody : List Char → Option (List Char × List Char)
  | [] => none
  | c :: rest =>
    if c = '"' then some ([], rest)
    else if c = '\\' then
      match rest with
      | [] => none
      | e :: rest2 =>
        if e = 'u' then
          match rest2 with
          | h1 :: h2 :: h3 :: h4 :: rest6 =>
            match hexVal h1, hexVal h2, hexVal h3, hexVal h4 with
            | some a, some b, some x, some y =>
              (parseStrBody rest6).map
                (fun p => (Char.ofNat (((a * 16 + b) * 16 + x) * 16 + y) :: p.1, p.2))
            | _, _, _, _ => none
          | _ => none
        else
          match escCode e with
          | some c' => (parseStrBody rest2).map (fun p => (c' :: p.1, p.2))
          | none => none
    else (parseStrBody rest).map (fun p => (c :: p.1, p.2))

/-- Skip JSON whitespace. -/
def skipWs : List Char → List Char
  | [] => []
  | c :: rest =>
    if c = ' ' ∨ c = '\n' ∨ c = '\t' ∨ c = '\r' then skipWs rest else c :: rest

/-- Expect one literal character. -/
def expectChar (c : Char) : List Char → Option (List Char)
  | [] => none
  | c' :: rest => if c' = c then some rest else none

/-- Parse a complete JSON string literal (opening quote included). -/
def parseJString (cs : List Char) : Option (List Char × List Char) :=
  match cs with
  | '"' :: rest => parseStrBody rest
  | _ => none

/-- Modelled from the spec: decode one stored message object
`\x7b"role": <string>, "content": <string>\x7d`. -/
def parseMessage (cs : List Char) : Option (Message × List Char) := do
  let cs1 ← expectChar '\x7b' (skipWs cs)
  let k1 ← parseJString (skipWs cs1)
  if k1.1 ≠ ['r', 'o', 'l', 'e'] then none else do
  let cs2 ← expectChar ':' (skipWs k1.2)
  let r ← parseJString (skipWs cs2)
  let cs3 ← expectChar ',' (skipWs r.2)
  let k2 ← parseJString (skipWs cs3)
  if k2.1 ≠ ['c', 'o', 'n', 't', 'e', 'n', 't'] then none else do
  let cs4 ← expectChar ':' (skipWs k2.2)
  let co ← parseJString (skipWs cs4)
  let cs5 ← expectChar '\x7d' (skipWs co.2)
  some (⟨String.mk r.1, String.mk co.1⟩, cs5)

/-- Modelled from the spec: decode a non-empty comma-separated message list,
with fuel bounding the number of elements. -/
def parseMsgListAux : Nat → List Char → Option (List Message × List Char)
  | 0, _ => none
  | fuel + 1, cs =>
    match parseMessage cs with
    | none => none
    | some m =>
      match expectChar ',' (skipWs m.2) with
      | some cs2 =>
        match parseMsgListAux fuel cs2 with
        | none => none
        | some ms => some (m.1 :: ms.1, ms.2)
      | none => some ([m.1], skipWs m.2)

/-- Modelled from the spec: JSON-decode a stored `messages` string back to the
array of role/content pairs (the repository itself never decodes; this is the
inverse direction of the round-trip the spec asserts). -/
def decodeMessages (s : String) : Option (List Message) :=
  match expectChar '[' (skipWs s.data) with
  | none => none
  | some cs =>
    match expectChar ']' (skipWs cs) with
    | some cs2 => if skipWs cs2 = [] then some [] else none
    | none =>
      match parseMsgListAux (s.data.length + 1) (skipWs cs) with
      | none => none
      | some ms =>
        match expectChar ']' (skipWs ms.2) with
        | some cs3 => if skipWs cs3 = [] then some ms.1 else none
        | none => none

/-- A row of the `api_calls` table (src/app.py lines 33-47).  Nullable columns
are `Option`; `call_time` is an abstract timestamp. -/
structure APICall where
  uuid : String
  messages : String
  model : String
  response_format : String
  temperature : Rat
  reply : Option String
  prompt_tokens : Option Nat
  completion_tokens : Option Nat
  total_tokens : Option Nat
  call_duration : Rat
  error_flag : Nat
  call_time : Nat
  request_ip : String
deriving DecidableEq, Repr

/-- The JSON body of the incoming request after `request.get_json()`:
each field is `none` when the key is absent. -/
structure ReqData where
  api_key : Option String
  messages : Option (List Message)
  model : Option String
  response_format : Option String
  uuid : Option String
  temperature : Option Rat
deriving DecidableEq, Repr

/-- The structured-output argument `\x7b"type": "json_object"\x7d`. -/
structure RespFormatArg where
  type : String
deriving DecidableEq, Repr

/-- The argument tuple of one invocation of
`client.chat.completions.create` (src/app.py lines 84-95). -/
structure RemoteCall where
  model : String
  messages : List Message
  temperature : Rat
  response_format : Option RespFormatArg
deriving DecidableEq, Repr

/-- The `usage` object of the provider's response. -/
structure Usage where
  prompt_tokens : Nat
  completion_tokens : Nat
  total_tokens : Nat
deriving DecidableEq, Repr

/-- The part of the provider's response the handler reads:
`choices[0].message.content` and `usage`. -/
structure RemoteResp where
  content : String
  usage : Usage
deriving DecidableEq, Repr

/-- A JSON value appearing in a response body produced by `jsonify`. -/
inductive JVal where
  | s (v : String)
  | n (v : Nat)
  | q (v : Rat)
deriving DecidableEq, Repr

/-- Outcome of one request: HTTP status, JSON body as an ordered key/value
list, the database after the request, and the argument tuple of the remote
invocation when one was made. -/
structure HandlerResult where
  status : Nat
  body : List (String × JVal)
  db : List APICall
  remoteCalled : Option RemoteCall
deriving Repr

/-- Python truthiness of an optional string field: `None` and `""` are falsy. -/
def strTruthy : Option String → Bool
  | none => false
  | some s => s != ""

/-- Python truthiness of the optional `messages` list: `None` and `[]` are
falsy. -/
def msgsTruthy : Option (List Message) → Bool
  | none => false
  | some l => !l.isEmpty

/-- `request.remote_addr or 'unknown'` (src/app.py line 127). -/
def ipOf : Option String → String
  | none => "unknown"
  | some ip => if ip = "" then "unknown" else ip

/-- The record built at src/app.py lines 115-128.  `total_tokens` is never
passed to the constructor, so the column stays null. -/
def mkCallRecord (uuid : String) (messages : List Message)
    (model_name response_format : String) (temperature : Rat) (resp : RemoteResp)
    (duration : Rat) (call_time : Nat) (request_ip : String) : APICall :=
  { uuid := uuid
    messages := encodeMessages messages
    model := model_name
    response_format := response_format
    temperature := temperature
    reply := some resp.content
    prompt_tokens := some resp.usage.prompt_tokens
    completion_tokens := some resp.usage.completion_tokens
    total_tokens := none
    call_duration := duration
    error_flag := if hasNewlineRun resp.content then 1 else 0
    call_time := call_time
    request_ip := request_ip }

/-- Insertion into the `api_calls` table: the primary key on `uuid`
(src/app.py line 35) makes the commit fail exactly when a row with the same
`uuid` already exists; a failed commit leaves the table unchanged. -/
def sqliteInsert (db : List APICall) (record : APICall) : Except String (List APICall) :=
  if db.any (fun r => r.uuid == record.uuid) then
    Except.error "UNIQUE constraint failed: api_calls.uuid"
  else Except.ok (db ++ [record])

/-- The handler `call_openai` (src/app.py lines 56-151).  `data` is the parsed
JSON body (`none` when the body carries no JSON data), `remote` the provider
oracle, `dbInsert` the session commit, `duration` the measured wall-clock time
of the remote call, `remote_addr` the client address, `db` the table before the
request. -/
def call_openai (data : Option ReqData)
    (remote : RemoteCall → Except String RemoteResp)
    (dbInsert : List APICall → APICall → Except String (List APICall))
    (duration : Rat) (call_time : Nat) (remote_addr : Option String)
    (db : List APICall) : HandlerResult :=
  match data with
  | none => ⟨400, [("error", JVal.s "无效的JSON数据")], db, none⟩
  | some d =>
    let response_format := d.response_format.getD "text"
    let temperature := d.temperature.getD 1
    if !(strTruthy d.api_key && msgsTruthy d.messages && strTruthy d.model &&
        (response_format != "") && strTruthy d.uuid) then
      ⟨400, [("error", JVal.s "缺少必要参数")], db, none⟩
    else
      let model_name := d.model.getD ""
      let messages := d.messages.getD []
      let uuid := d.uuid.getD ""
      let rcArg : Option RemoteCall :=
        if response_format = "json" then
          some ⟨model_name, messages, temperature, some ⟨"json_object"⟩⟩
        else if response_format = "text" then
          some ⟨model_name, messages, temperature, none⟩
        else none
      match rcArg with
      | none =>
        ⟨500, [("error", JVal.s "调用 OpenAI API 失败"),
               ("details", JVal.s "Error response_format")], db, none⟩
      | some rc =>
        match remote rc with
        | Except.error e =>
          ⟨500, [("error", JVal.s "调用 OpenAI API 失败"), ("details", JVal.s e)],
           db, some rc⟩
        | Except.ok resp =>
          let record := mkCallRecord uuid messages model_name response_format
            temperature resp duration call_time (ipOf remote_addr)
          match dbInsert db record with
          | Except.error e =>
            ⟨500, [("error", JVal.s "数据库错误"), ("details", JVal.s e)], db, some rc⟩
          | Except.ok db2 =>
            ⟨200, [("reply", JVal.s resp.content),
                   ("prompt_tokens", JVal.n resp.usage.prompt_tokens),
                   ("completion_tokens", JVal.n resp.usage.completion_tokens),
                   ("call_duration", JVal.q duration),
                   ("error_flag", JVal.n (if hasNewlineRun resp.content then 1 else 0))],
             db2, some rc⟩

/-- Number of rows with a given primary key. -/
def uuidCount (u : String) (db : List APICall) : Nat :=
  (db.filter (fun r => r.uuid == u)).length

end AppPy

namespace AppPy

/-! ### The newline-run scan -/

theorem isNl_iff (c : Char) : isNl c = true ↔ c = '\n' ∨ c = '\r' := by
  simp [isNl]

theorem runScan_of_le (cs : List Char) (k : Nat) (h : 4 ≤ k) : runScan cs k = true := by
  induction cs generalizing k with
  | nil => simpa [runScan]
  | cons c rest ih =>
    by_cases hc : isNl c = true
    · simpa [runScan, hc] using ih (k + 1) (by omega)
    · simp [runScan, hc]
      left
      omega

theorem runScan_nl_block (l : List Char) (hl : ∀ c ∈ l, isNl c = true) :
    ∀ (k : Nat) (q : List Char), 4 ≤ k + l.length → runScan (l ++ q) k = true := by
  induction l with
  | nil =>
    intro k q h
    simp at h
    exact runScan_of_le q k h
  | cons c l' ih =>
    intro k q h
    have hc : isNl c = true := hl c (by simp)
    have hl' : ∀ c ∈ l', isNl c = true := fun x hx => hl x (by simp [hx])
    simpa [runScan, hc] using ih hl' (k + 1) q (by simp at h ⊢; omega)

theorem runScan_of_block (p l q : List Char) (hl : ∀ c ∈ l, isNl c = true)
    (hlen : 4 ≤ l.length) : ∀ k, runScan (p ++ l ++ q) k = true := by
  induction p with
  | nil =>
    intro k
    simpa using runScan_nl_block l hl k q (by omega)
  | cons x p' ih =>
    intro k
    by_cases hx : isNl x = true
    · simpa [runScan, hx] using ih (k + 1)
    · simp [runScan, hx]
      right
      simpa [List.append_assoc] using ih 0

theorem runScan_true_split (cs : List Char) :
    ∀ k, runScan cs k = true →
      (∃ p, (∀ c ∈ p, isNl c = true) ∧ 4 ≤ k + p.length ∧ ∃ q, cs = p ++ q) ∨
      (∃ l, 4 ≤ l.length ∧ (∀ c ∈ l, isNl c = true) ∧ ∃ p q, cs = p ++ l ++ q) := by
  induction cs with
  | nil =>
    intro k h
    simp [runScan] at h
    exact Or.inl ⟨[], by simp, by simpa using h, [], by simp⟩
  | cons c rest ih =>
    intro k h
    by_cases hc : isNl c = true
    · simp [runScan, hc] at h
      rcases ih (k + 1) h with ⟨p, hp, hlen, q, hq⟩ | ⟨l, hlen, hl, p, q, hpq⟩
      · refine Or.inl ⟨c :: p, ?_, by simp; omega, q, by simp [hq]⟩
        intro x hx
        rcases List.mem_cons.mp hx with rfl | hx
        · exact hc
        · exact hp x hx
      · exact Or.inr ⟨l, hlen, hl, c :: p, q, by simp [hpq]⟩
    · simp [runScan, hc] at h
      rcases h with h | h
      · exact Or.inl ⟨[], by simp, by simpa using h, c :: rest, by simp⟩
      · rcases ih 0 h with ⟨p, hp, hlen, q, hq⟩ | ⟨l, hlen, hl, p, q, hpq⟩
        · exact Or.inr ⟨p, by simpa using hlen, hp, [c], q, by simp [hq]⟩
        · exact Or.inr ⟨l, hlen, hl, c :: p, q, by simp [hpq]⟩

theorem hasNewlineRun_iff (s : String) :
    hasNewlineRun s = true ↔
      ∃ l : List Char, 4 ≤ l.length ∧ (∀ c ∈ l, c = '\n' ∨ c = '\r') ∧
        ∃ p q, s.data = p ++ l ++ q := by
  constructor
  · intro h
    rcases runScan_true_split s.data 0 h with ⟨p, hp, hlen, q, hq⟩ | ⟨l, hlen, hl, p, q, hpq⟩
    · exact ⟨p, by simpa using hlen, fun c hc => (isNl_iff c).mp (hp c hc), [], q, by simpa using hq⟩
    · exact ⟨l, hlen, fun c hc => (isNl_iff c).mp (hl c hc), p, q, hpq⟩
  · rintro ⟨l, hlen, hl, p, q, hpq⟩
    have : runScan (p ++ l ++ q) 0 = true :=
      runScan_of_block p l q (fun c hc => (isNl_iff c).mpr (hl c hc)) hlen 0
    simpa [hasNewlineRun, hpq] using this

end AppPy

namespace AppPy

/-! ### JSON round-trip for the stored `messages` string -/

theorem hexVal_hexDigitChar (n : Nat) (h : n < 16) : hexVal (hexDigitChar n) = some n := by
  interval_cases n <;> decide

theorem psb_quote (rest : List Char) : parseStrBody ('"' :: rest) = some ([], rest) := by
  rw [parseStrBody.eq_def]; rfl

theorem psb_esc_quote (rest : List Char) : parseStrBody ('\\' :: '"' :: rest) =
    (parseStrBody rest).map (fun p => ('"' :: p.1, p.2)) := by
  rw [parseStrBody.eq_def]; rfl

theorem psb_esc_bs (rest : List Char) : parseStrBody ('\\' :: '\\' :: rest) =
    (parseStrBody rest).map (fun p => ('\\' :: p.1, p.2)) := by
  rw [parseStrBody.eq_def]; rfl

theorem psb_esc_n (rest : List Char) : parseStrBody ('\\' :: 'n' :: rest) =
    (parseStrBody rest).map (fun p => ('\n' :: p.1, p.2)) := by
  rw [parseStrBody.eq_def]; rfl

theorem psb_esc_r (rest : List Char) : parseStrBody ('\\' :: 'r' :: rest) =
    (parseStrBody rest).map (fun p => ('\r' :: p.1, p.2)) := by
  rw [parseStrBody.eq_def]; rfl

theorem psb_esc_t (rest : List Char) : parseStrBody ('\\' :: 't' :: rest) =
    (parseStrBody rest).map (fun p => ('\t' :: p.1, p.2)) := by
  rw [parseStrBody.eq_def]; rfl

theorem psb_esc_b (rest : List Char) : parseStrBody ('\\' :: 'b' :: rest) =
    (parseStrBody rest).map (fun p => ('\x08' :: p.1, p.2)) := by
  rw [parseStrBody.eq_def]; rfl

theorem psb_esc_f (rest : List Char) : parseStrBody ('\\' :: 'f' :: rest) =
    (parseStrBody rest).map (fun p => ('\x0c' :: p.1, p.2)) := by
  rw [parseStrBody.eq_def]; rfl

theorem psb_lit (c : Char) (rest : List Char) (h1 : c ≠ '"') (h2 : c ≠ '\\') :
    parseStrBody (c :: rest) = (parseStrBody rest).map (fun p => (c :: p.1, p.2)) := by
  rw [parseStrBody.eq_def]
  simp only [if_neg h1, if_neg h2]

theorem psb_u (h3 h4 : Char) (x y : Nat) (hx : hexVal h3 = some x) (hy : hexVal h4 = some y)
    (rest : List Char) :
    parseStrBody ('\\' :: 'u' :: '0' :: '0' :: h3 :: h4 :: rest) =
    (parseStrBody rest).map
      (fun p => (Char.ofNat (((0 * 16 + 0) * 16 + x) * 16 + y) :: p.1, p.2)) := by
  rw [parseStrBody.eq_def]
  have h0 : hexVal '0' = some 0 := by decide
  simp only [h0, hx, hy, if_neg (show ('\\' : Char) ≠ '"' by decide), ite_true]

theorem parseStrBody_escList (s : List Char) (rest : List Char) :
    parseStrBody (escList s ++ '"' :: rest) = some (s, rest) := by
  induction s with
  | nil => simpa [escList] using psb_quote rest
  | cons c cs ih =>
    have hsplit : escList (c :: cs) ++ '"' :: rest = escChar c ++ (escList cs ++ '"' :: rest) := by
      simp [escList]
    rw [hsplit]
    by_cases h1 : c = '"'
    · subst h1
      rw [show escChar '"' = ['\\', '"'] from by decide]
      rw [show (['\\', '"'] : List Char) ++ (escList cs ++ '"' :: rest) =
        '\\' :: '"' :: (escList cs ++ '"' :: rest) from rfl]
      rw [psb_esc_quote, ih]
      rfl
    · by_cases h2 : c = '\\'
      · subst h2
        rw [show escChar '\\' = ['\\', '\\'] from by decide]
        rw [show (['\\', '\\'] : List Char) ++ (escList cs ++ '"' :: rest) =
          '\\' :: '\\' :: (escList cs ++ '"' :: rest) from rfl]
        rw [psb_esc_bs, ih]
        rfl
      · by_cases h3 : c = '\n'
        · subst h3
          rw [show escChar '\n' = ['\\', 'n'] from by decide]
          rw [show (['\\', 'n'] : List Char) ++ (escList cs ++ '"' :: rest) =
            '\\' :: 'n' :: (escList cs ++ '"' :: rest) from rfl]
          rw [psb_esc_n, ih]
          rfl
        · by_cases h4 : c = '\r'
          · subst h4
            rw [show escChar '\r' = ['\\', 'r'] from by decide]
            rw [show (['\\', 'r'] : List Char) ++ (escList cs ++ '"' :: rest) =
              '\\' :: 'r' :: (escList cs ++ '"' :: rest) from rfl]
            rw [psb_esc_r, ih]
            rfl
          · by_cases h5 : c = '\t'
            · subst h5
              rw [show escChar '\t' = ['\\', 't'] from by decide]
              rw [show (['\\', 't'] : List Char) ++ (escList cs ++ '"' :: rest) =
                '\\' :: 't' :: (escList cs ++ '"' :: rest) from rfl]
              rw [psb_esc_t, ih]
              rfl
            · by_cases h6 : c.toNat = 8
              · have hc : c = '\x08' := by
                  rw [← Char.ofNat_toNat c, h6]
                subst hc
                rw [show escChar '\x08' = ['\\', 'b'] from by decide]
                rw [show (['\\', 'b'] : List Char) ++ (escList cs ++ '"' :: rest) =
                  '\\' :: 'b' :: (escList cs ++ '"' :: rest) from rfl]
                rw [psb_esc_b, ih]
                rfl
              · by_cases h7 : c.toNat = 12
                · have hc : c = '\x0c' := by
                    rw [← Char.ofNat_toNat c, h7]
                  subst hc
                  rw [show escChar '\x0c' = ['\\', 'f'] from by decide]
                  rw [show (['\\', 'f'] : List Char) ++ (escList cs ++ '"' :: rest) =
                    '\\' :: 'f' :: (escList cs ++ '"' :: rest) from rfl]
                  rw [psb_esc_f, ih]
                  rfl
                · by_cases h8 : c.toNat < 32
                  · have hesc : escChar c =
                        ['\\', 'u', '0', '0', hexDigitChar (c.toNat / 16), hexDigitChar (c.toNat % 16)] := by
                      simp [escChar, h1, h2, h3, h4, h5, h6, h7, h8]
                    rw [hesc]
                    rw [show (['\\', 'u', '0', '0', hexDigitChar (c.toNat / 16), hexDigitChar (c.toNat % 16)] : List Char)
                        ++ (escList cs ++ '"' :: rest) =
                      '\\' :: 'u' :: '0' :: '0' :: hexDigitChar (c.toNat / 16) :: hexDigitChar (c.toNat % 16) ::
                        (escList cs ++ '"' :: rest) from rfl]
                    rw [psb_u _ _ _ _ (hexVal_hexDigitChar _ (by omega)) (hexVal_hexDigitChar _ (by omega)), ih]
                    have harith : ((0 * 16 + 0) * 16 + c.toNat / 16) * 16 + c.toNat % 16 = c.toNat := by
                      omega
                    rw [harith, Char.ofNat_toNat]
                    rfl
                  · have hesc : escChar c = [c] := by
                      simp [escChar, h1, h2, h3, h4, h5, h6, h7, h8]
                    rw [hesc]
                    rw [show ([c] : List Char) ++ (escList cs ++ '"' :: rest) =
                      c :: (escList cs ++ '"' :: rest) from rfl]
                    rw [psb_lit c _ h1 h2, ih]
                    rfl

end AppPy

namespace AppPy

theorem skipWs_brace (l : List Char) : skipWs ('\x7b' :: l) = '\x7b' :: l := rfl
theorem skipWs_quote (l : List Char) : skipWs ('"' :: l) = '"' :: l := rfl
theorem skipWs_colon (l : List Char) : skipWs (':' :: l) = ':' :: l := rfl
theorem skipWs_comma (l : List Char) : skipWs (',' :: l) = ',' :: l := rfl
theorem skipWs_cbrace (l : List Char) : skipWs ('\x7d' :: l) = '\x7d' :: l := rfl
theorem skipWs_space (l : List Char) : skipWs (' ' :: l) = skipWs l := rfl
theorem skipWs_lbracket (l : List Char) : skipWs ('[' :: l) = '[' :: l := rfl
theorem skipWs_rbracket (l : List Char) : skipWs (']' :: l) = ']' :: l := rfl

theorem expectChar_same (c : Char) (l : List Char) : expectChar c (c :: l) = some l := by
  simp [expectChar]

theorem expectChar_diff (c c' : Char) (h : c' ≠ c) (l : List Char) :
    expectChar c (c' :: l) = none := by
  simp [expectChar, h]

theorem parseJString_enc (s t : List Char) :
    parseJString ('"' :: (escList s ++ '"' :: t)) = some (s, t) := by
  simpa [parseJString] using parseStrBody_escList s t

theorem parseKeyRole (t : List Char) :
    parseJString ('"' :: 'r' :: 'o' :: 'l' :: 'e' :: '"' :: t) = some (['r', 'o', 'l', 'e'], t) := by
  have h := parseStrBody_escList ['r', 'o', 'l', 'e'] t
  rw [show escList ['r', 'o', 'l', 'e'] = ['r', 'o', 'l', 'e'] from by decide] at h
  simpa [parseJString] using h

theorem parseKeyContent (t : List Char) :
    parseJString ('"' :: 'c' :: 'o' :: 'n' :: 't' :: 'e' :: 'n' :: 't' :: '"' :: t) =
      some (['c', 'o', 'n', 't', 'e', 'n', 't'], t) := by
  have h := parseStrBody_escList ['c', 'o', 'n', 't', 'e', 'n', 't'] t
  rw [show escList ['c', 'o', 'n', 't', 'e', 'n', 't'] = ['c', 'o', 'n', 't', 'e', 'n', 't'] from by decide] at h
  simpa [parseJString] using h

theorem parseMessage_enc (m : Message) (rest : List Char) :
    parseMessage (encMsg m ++ rest) = some (m, rest) := by
  have hA : encMsg m ++ rest =
      '\x7b' :: '"' :: 'r' :: 'o' :: 'l' :: 'e' :: '"' :: ':' :: ' ' ::
        ('"' :: (escList m.role.data ++ '"' ::
          (',' :: ' ' :: '"' :: 'c' :: 'o' :: 'n' :: 't' :: 'e' :: 'n' :: 't' :: '"' :: ':' :: ' ' ::
            ('"' :: (escList m.content.data ++ '"' :: ('\x7d' :: rest)))))) := by
    simp [encMsg, encStr]
  rw [hA]
  simp only [parseMessage, skipWs_brace, skipWs_quote, skipWs_colon, skipWs_comma,
    skipWs_cbrace, skipWs_space, expectChar_same, parseKeyRole, parseKeyContent,
    parseJString_enc, Option.bind_eq_bind, Option.some_bind]
  simp

theorem parseMessage_ws (cs : List Char) : parseMessage (' ' :: cs) = parseMessage cs := by
  simp only [parseMessage, skipWs_space]

theorem parseMsgListAux_ws (fuel : Nat) (cs : List Char) :
    parseMsgListAux fuel (' ' :: cs) = parseMsgListAux fuel cs := by
  cases fuel with
  | zero => rfl
  | succ f => simp only [parseMsgListAux, parseMessage_ws]

theorem parseMsgListAux_enc (msgs : List Message) :
    ∀ fuel, msgs ≠ [] → msgs.length ≤ fuel →
      parseMsgListAux fuel (encMsgsBody msgs ++ [']']) = some (msgs, [']']) := by
  induction msgs with
  | nil => intro fuel h; exact absurd rfl h
  | cons m ms ih =>
    intro fuel _ hlen
    cases fuel with
    | zero => simp at hlen
    | succ f =>
      cases ms with
      | nil =>
        show parseMsgListAux (f + 1) (encMsg m ++ [']']) = _
        simp only [parseMsgListAux, parseMessage_enc, skipWs_rbracket,
          expectChar_diff _ _ (show (']' : Char) ≠ ',' from by decide)]
      | cons m2 ms2 =>
        have hsplit : encMsgsBody (m :: m2 :: ms2) ++ [']'] =
            encMsg m ++ (',' :: ' ' :: (encMsgsBody (m2 :: ms2) ++ [']'])) := by
          simp [encMsgsBody]
        rw [hsplit]
        simp only [parseMsgListAux, parseMessage_enc, skipWs_comma, expectChar_same]
        rw [parseMsgListAux_ws, ih f (by simp) (by simpa using hlen)]

theorem encMsgsBody_length (msgs : List Message) : msgs.length ≤ (encMsgsBody msgs).length := by
  induction msgs with
  | nil => simp [encMsgsBody]
  | cons m ms ih =>
    cases ms with
    | nil => simp [encMsgsBody, encMsg]
    | cons m2 ms2 =>
      rw [show encMsgsBody (m :: m2 :: ms2) =
        encMsg m ++ ',' :: ' ' :: encMsgsBody (m2 :: ms2) from rfl]
      have hm : 1 ≤ (encMsg m).length := by simp [encMsg]
      simp only [List.length_append, List.length_cons] at *
      omega

theorem decode_encode (msgs : List Message) :
    decodeMessages (encodeMessages msgs) = some msgs := by
  cases msgs with
  | nil => decide
  | cons m ms =>
    have hdata : (encodeMessages (m :: ms)).data = '[' :: (encMsgsBody (m :: ms) ++ [']']) := rfl
    obtain ⟨z, hz⟩ : ∃ z, encMsgsBody (m :: ms) ++ [']'] = '\x7b' :: z := by
      cases ms <;> exact ⟨_, rfl⟩
    have hlen : (m :: ms).length ≤ (encodeMessages (m :: ms)).data.length + 1 := by
      have h1 := encMsgsBody_length (m :: ms)
      rw [hdata]
      simp only [List.length_cons, List.length_append] at *
      omega
    simp only [decodeMessages, hdata, skipWs_lbracket, expectChar_same]
    rw [hz, skipWs_brace,
      expectChar_diff _ _ (show ('\x7b' : Char) ≠ ']' from by decide), ← hz]
    rw [parseMsgListAux_enc (m :: ms) _ (by simp) (by simpa [hdata] using hlen)]
    simp [skipWs_rbracket, expectChar_same, skipWs]

end AppPy

namespace AppPy

/-! ### Handler branch structure -/

theorem call_openai_enum (d? : Option ReqData) (remote : RemoteCall → Except String RemoteResp)
    (dbInsert : List APICall → APICall → Except String (List APICall))
    (dur : Rat) (ct : Nat) (ra : Option String) (db : List APICall) :
    (∃ msg : String, call_openai d? remote dbInsert dur ct ra db =
      ⟨400, [("error", JVal.s msg)], db, none⟩) ∨
    (call_openai d? remote dbInsert dur ct ra db =
      ⟨500, [("error", JVal.s "调用 OpenAI API 失败"), ("details", JVal.s "Error response_format")], db, none⟩) ∨
    (∃ (e : String) (rc : RemoteCall), call_openai d? remote dbInsert dur ct ra db =
      ⟨500, [("error", JVal.s "调用 OpenAI API 失败"), ("details", JVal.s e)], db, some rc⟩) ∨
    (∃ (e : String) (rc : RemoteCall) (record : APICall),
      dbInsert db record = Except.error e ∧ record.total_tokens = none ∧
      call_openai d? remote dbInsert dur ct ra db =
        ⟨500, [("error", JVal.s "数据库错误"), ("details", JVal.s e)], db, some rc⟩) ∨
    (∃ (resp : RemoteResp) (db2 : List APICall) (rc : RemoteCall) (record : APICall),
      record.total_tokens = none ∧ dbInsert db record = Except.ok db2 ∧
      call_openai d? remote dbInsert dur ct ra db =
        ⟨200, [("reply", JVal.s resp.content),
               ("prompt_tokens", JVal.n resp.usage.prompt_tokens),
               ("completion_tokens", JVal.n resp.usage.completion_tokens),
               ("call_duration", JVal.q dur),
               ("error_flag", JVal.n (if hasNewlineRun resp.content then 1 else 0))], db2, some rc⟩) := by
  rcases d? with _ | d
  · exact Or.inl ⟨_, rfl⟩
  · by_cases hv : (strTruthy d.api_key && msgsTruthy d.messages && strTruthy d.model &&
        (d.response_format.getD "text" != "") && strTruthy d.uuid) = true
    · obtain ⟨⟨⟨⟨h1, h2⟩, h3⟩, h4⟩, h5⟩ := by simpa only [Bool.and_eq_true] using hv
      by_cases hj : d.response_format.getD "text" = "json"
      · cases hR : remote ⟨d.model.getD "", d.messages.getD [], d.temperature.getD 1,
            some ⟨"json_object"⟩⟩ with
        | error e =>
          refine Or.inr (Or.inr (Or.inl ⟨e, ⟨d.model.getD "", d.messages.getD [],
            d.temperature.getD 1, some ⟨"json_object"⟩⟩, ?_⟩))
          simp [call_openai, h1, h2, h3, h4, h5, hj, hR]
        | ok resp =>
          cases hD : dbInsert db (mkCallRecord (d.uuid.getD "") (d.messages.getD [])
              (d.model.getD "") "json" (d.temperature.getD 1) resp dur ct (ipOf ra)) with
          | error e =>
            refine Or.inr (Or.inr (Or.inr (Or.inl ⟨e, ⟨d.model.getD "", d.messages.getD [],
              d.temperature.getD 1, some ⟨"json_object"⟩⟩, mkCallRecord (d.uuid.getD "")
              (d.messages.getD []) (d.model.getD "") "json" (d.temperature.getD 1) resp dur ct
              (ipOf ra), hD, rfl, ?_⟩)))
            simp [call_openai, h1, h2, h3, h4, h5, hj, hR, hD]
          | ok db2 =>
            refine Or.inr (Or.inr (Or.inr (Or.inr ⟨resp, db2, ⟨d.model.getD "",
              d.messages.getD [], d.temperature.getD 1, some ⟨"json_object"⟩⟩,
              mkCallRecord (d.uuid.getD "") (d.messages.getD []) (d.model.getD "") "json"
              (d.temperature.getD 1) resp dur ct (ipOf ra), rfl, hD, ?_⟩)))
            simp [call_openai, h1, h2, h3, h4, h5, hj, hR, hD]
      · by_cases ht : d.response_format.getD "text" = "text"
        · cases hR : remote ⟨d.model.getD "", d.messages.getD [], d.temperature.getD 1, none⟩ with
          | error e =>
            refine Or.inr (Or.inr (Or.inl ⟨e, ⟨d.model.getD "", d.messages.getD [],
              d.temperature.getD 1, none⟩, ?_⟩))
            simp [call_openai, h1, h2, h3, h4, h5, hj, ht, hR]
          | ok resp =>
            cases hD : dbInsert db (mkCallRecord (d.uuid.getD "") (d.messages.getD [])
                (d.model.getD "") "text" (d.temperature.getD 1) resp dur ct (ipOf ra)) with
            | error e =>
              refine Or.inr (Or.inr (Or.inr (Or.inl ⟨e, ⟨d.model.getD "", d.messages.getD [],
                d.temperature.getD 1, none⟩, mkCallRecord (d.uuid.getD "") (d.messages.getD [])
                (d.model.getD "") "text" (d.temperature.getD 1) resp dur ct (ipOf ra),
                hD, rfl, ?_⟩)))
              simp [call_openai, h1, h2, h3, h4, h5, hj, ht, hR, hD]
            | ok db2 =>
              refine Or.inr (Or.inr (Or.inr (Or.inr ⟨resp, db2, ⟨d.model.getD "",
                d.messages.getD [], d.temperature.getD 1, none⟩, mkCallRecord (d.uuid.getD "")
                (d.messages.getD []) (d.model.getD "") "text" (d.temperature.getD 1) resp dur ct
                (ipOf ra), rfl, hD, ?_⟩)))
              simp [call_openai, h1, h2, h3, h4, h5, hj, ht, hR, hD]
        · refine Or.inr (Or.inl ?_)
          simp [call_openai, h1, h2, h3, h4, h5, hj, ht]
    · refine Or.inl ⟨"缺少必要参数", ?_⟩
      simp only [Bool.not_eq_true] at hv
      simp [call_openai, hv]

theorem sqliteInsert_ok (db : List APICall) (record : APICall) (db2 : List APICall)
    (h : sqliteInsert db record = Except.ok db2) :
    (∀ r ∈ db, r.uuid ≠ record.uuid) ∧ db2 = db ++ [record] := by
  unfold sqliteInsert at h
  by_cases hany : db.any (fun r => r.uuid == record.uuid) = true
  · simp [hany] at h
  · simp only [hany] at h
    rw [if_neg (by simpa using hany)] at h
    simp only [List.any_eq_true, beq_iff_eq, not_exists, not_and] at hany
    exact ⟨hany, by simpa using h.symm⟩

theorem sqliteInsert_error_of_mem (db : List APICall) (record : APICall) (r : APICall)
    (hr : r ∈ db) (huuid : r.uuid = record.uuid) :
    sqliteInsert db record = Except.error "UNIQUE constraint failed: api_calls.uuid" := by
  unfold sqliteInsert
  rw [if_pos]
  simp only [List.any_eq_true, beq_iff_eq]
  exact ⟨r, hr, huuid⟩

theorem uuidCount_append_one (u : String) (db : List APICall) (record : APICall) :
    uuidCount u (db ++ [record]) =
      uuidCount u db + (if record.uuid = u then 1 else 0) := by
  simp only [uuidCount, List.filter_append, List.length_append]
  congr 1
  by_cases h : record.uuid = u <;> simp [List.filter_cons, h]

theorem uuidCount_eq_zero_of (u : String) (db : List APICall)
    (h : ∀ r ∈ db, r.uuid ≠ u) : uuidCount u db = 0 := by
  simp only [uuidCount, List.length_eq_zero, List.filter_eq_nil]
  intro r hr
  simpa using h r hr

end AppPy

namespace AppPy

theorem call_openai_json_eq (ak mn u : String) (msgs : List Message) (t : Rat)
    (remote : RemoteCall → Except String RemoteResp)
    (dbInsert : List APICall → APICall → Except String (List APICall))
    (dur : Rat) (ct : Nat) (ra : Option String) (db : List APICall)
    (hak : ak ≠ "") (hm : msgs ≠ []) (hmn : mn ≠ "") (hu : u ≠ "") :
    call_openai (some ⟨some ak, some msgs, some mn, some "json", some u, some t⟩)
      remote dbInsert dur ct ra db =
      match remote ⟨mn, msgs, t, some ⟨"json_object"⟩⟩ with
      | Except.error e =>
        ⟨500, [("error", JVal.s "调用 OpenAI API 失败"), ("details", JVal.s e)], db,
          some ⟨mn, msgs, t, some ⟨"json_object"⟩⟩⟩
      | Except.ok resp =>
        match dbInsert db (mkCallRecord u msgs mn "json" t resp dur ct (ipOf ra)) with
        | Except.error e =>
          ⟨500, [("error", JVal.s "数据库错误"), ("details", JVal.s e)], db,
            some ⟨mn, msgs, t, some ⟨"json_object"⟩⟩⟩
        | Except.ok db2 =>
          ⟨200, [("reply", JVal.s resp.content),
                 ("prompt_tokens", JVal.n resp.usage.prompt_tokens),
                 ("completion_tokens", JVal.n resp.usage.completion_tokens),
                 ("call_duration", JVal.q dur),
                 ("error_flag", JVal.n (if hasNewlineRun resp.content then 1 else 0))],
            db2, some ⟨mn, msgs, t, some ⟨"json_object"⟩⟩⟩ := by
  simp [call_openai, strTruthy, msgsTruthy, hak, hm, hmn, hu, mkCallRecord]

theorem call_openai_text_eq (ak mn u : String) (msgs : List Message) (t : Rat)
    (remote : RemoteCall → Except String RemoteResp)
    (dbInsert : List APICall → APICall → Except String (List APICall))
    (dur : Rat) (ct : Nat) (ra : Option String) (db : List APICall)
    (hak : ak ≠ "") (hm : msgs ≠ []) (hmn : mn ≠ "") (hu : u ≠ "") :
    call_openai (some ⟨some ak, some msgs, some mn, some "text", some u, some t⟩)
      remote dbInsert dur ct ra db =
      match remote ⟨mn, msgs, t, none⟩ with
      | Except.error e =>
        ⟨500, [("error", JVal.s "调用 OpenAI API 失败"), ("details", JVal.s e)], db,
          some ⟨mn, msgs, t, none⟩⟩
      | Except.ok resp =>
        match dbInsert db (mkCallRecord u msgs mn "text" t resp dur ct (ipOf ra)) with
        | Except.error e =>
          ⟨500, [("error", JVal.s "数据库错误"), ("details", JVal.s e)], db,
            some ⟨mn, msgs, t, none⟩⟩
        | Except.ok db2 =>
          ⟨200, [("reply", JVal.s resp.content),
                 ("prompt_tokens", JVal.n resp.usage.prompt_tokens),
                 ("completion_tokens", JVal.n resp.usage.completion_tokens),
                 ("call_duration", JVal.q dur),
                 ("error_flag", JVal.n (if hasNewlineRun resp.content then 1 else 0))],
            db2, some ⟨mn, msgs, t, none⟩⟩ := by
  simp [call_openai, strTruthy, msgsTruthy, hak, hm, hmn, hu, mkCallRecord]

end AppPy

namespace AppPy

/-! ### Claims -/

/-- C2: for a request whose body carries no JSON data, or in which a required
field (`api_key`, `messages`, `model`, `uuid`) is absent or falsy, the handler
returns HTTP 400 with a JSON body of the single-key form `\x7berror: string\x7d`,
the remote provider is not invoked (`remoteCalled = none`), and the database is
unchanged. -/
theorem claim2_missing_input_400 (d? : Option ReqData)
    (remote : RemoteCall → Except String RemoteResp)
    (dbInsert : List APICall → APICall → Except String (List APICall))
    (dur : Rat) (ct : Nat) (ra : Option String) (db : List APICall)
    (h : d? = none ∨ ∃ d : ReqData, d? = some d ∧
      (strTruthy d.api_key = false ∨ msgsTruthy d.messages = false ∨
       strTruthy d.model = false ∨ strTruthy d.uuid = false)) :
    ∃ msg : String, call_openai d? remote dbInsert dur ct ra db =
      ⟨400, [("error", JVal.s msg)], db, none⟩ := by
  rcases h with rfl | ⟨d, rfl, hf⟩
  · exact ⟨"无效的JSON数据", rfl⟩
  · refine ⟨"缺少必要参数", ?_⟩
    rcases hf with hf | hf | hf | hf <;> simp [call_openai, hf]

theorem claim2_witness : ∃ msg : String,
    call_openai none (fun _ => Except.error "boom") sqliteInsert 0 0 none [] =
      ⟨400, [("error", JVal.s msg)], [], none⟩ :=
  claim2_missing_input_400 none (fun _ => Except.error "boom") sqliteInsert 0 0 none []
    (Or.inl rfl)

/-- C4: for a well-formed request the provider is invoked with the
structured-output hint `\x7b"type": "json_object"\x7d` exactly when
`response_format` is `"json"`, with no response-format argument when it is
`"text"`, and with `model`, `messages`, `temperature` passed through
unchanged in both cases. -/
theorem claim4_remote_call_args (ak mn u rf : String) (msgs : List Message) (t : Rat)
    (remote : RemoteCall → Except String RemoteResp)
    (dbInsert : List APICall → APICall → Except String (List APICall))
    (dur : Rat) (ct : Nat) (ra : Option String) (db : List APICall)
    (hak : ak ≠ "") (hm : msgs ≠ []) (hmn : mn ≠ "") (hu : u ≠ "") :
    (rf = "json" →
      (call_openai (some ⟨some ak, some msgs, some mn, some rf, some u, some t⟩)
        remote dbInsert dur ct ra db).remoteCalled =
        some ⟨mn, msgs, t, some ⟨"json_object"⟩⟩) ∧
    (rf = "text" →
      (call_openai (some ⟨some ak, some msgs, some mn, some rf, some u, some t⟩)
        remote dbInsert dur ct ra db).remoteCalled =
        some ⟨mn, msgs, t, none⟩) := by
  constructor
  · rintro rfl
    rw [call_openai_json_eq ak mn u msgs t remote dbInsert dur ct ra db hak hm hmn hu]
    cases remote ⟨mn, msgs, t, some ⟨"json_object"⟩⟩ with
    | error e => rfl
    | ok resp =>
      dsimp only
      cases dbInsert db (mkCallRecord u msgs mn "json" t resp dur ct (ipOf ra)) with
      | error e => rfl
      | ok db2 => rfl
  · rintro rfl
    rw [call_openai_text_eq ak mn u msgs t remote dbInsert dur ct ra db hak hm hmn hu]
    cases remote ⟨mn, msgs, t, none⟩ with
    | error e => rfl
    | ok resp =>
      dsimp only
      cases dbInsert db (mkCallRecord u msgs mn "text" t resp dur ct (ipOf ra)) with
      | error e => rfl
      | ok db2 => rfl

theorem claim4_witness :
    ("json" = "json" →
      (call_openai (some ⟨some "k", some [⟨"user", "hi"⟩], some "gpt-4o", some "json",
        some "u-1", some 1⟩) (fun _ => Except.ok ⟨"ok", ⟨1, 2, 3⟩⟩) sqliteInsert 2 7
        (some "1.2.3.4") []).remoteCalled =
        some ⟨"gpt-4o", [⟨"user", "hi"⟩], 1, some ⟨"json_object"⟩⟩) ∧
    ("json" = "text" →
      (call_openai (some ⟨some "k", some [⟨"user", "hi"⟩], some "gpt-4o", some "json",
        some "u-1", some 1⟩) (fun _ => Except.ok ⟨"ok", ⟨1, 2, 3⟩⟩) sqliteInsert 2 7
        (some "1.2.3.4") []).remoteCalled =
        some ⟨"gpt-4o", [⟨"user", "hi"⟩], 1, none⟩) :=
  claim4_remote_call_args "k" "gpt-4o" "u-1" "json" [⟨"user", "hi"⟩] 1
    (fun _ => Except.ok ⟨"ok", ⟨1, 2, 3⟩⟩) sqliteInsert 2 7 (some "1.2.3.4") []
    (by decide) (by decide) (by decide) (by decide)

/-- C6: a well-formed request whose `response_format` is present, truthy, and
neither `"json"` nor `"text"` fails locally (the `AttributeError` raised before
any provider invocation is caught by the surrounding handler), producing
HTTP 500 with an error message and a details string, with no remote call and an
unchanged database. -/
theorem claim6_bad_response_format_500 (ak mn u rf : String) (msgs : List Message)
    (tOpt : Option Rat) (remote : RemoteCall → Except String RemoteResp)
    (dbInsert : List APICall → APICall → Except String (List APICall))
    (dur : Rat) (ct : Nat) (ra : Option String) (db : List APICall)
    (hak : ak ≠ "") (hm : msgs ≠ []) (hmn : mn ≠ "") (hu : u ≠ "")
    (hrf0 : rf ≠ "") (hrfj : rf ≠ "json") (hrft : rf ≠ "text") :
    call_openai (some ⟨some ak, some msgs, some mn, some rf, some u, tOpt⟩)
      remote dbInsert dur ct ra db =
      ⟨500, [("error", JVal.s "调用 OpenAI API 失败"),
             ("details", JVal.s "Error response_format")], db, none⟩ := by
  simp [call_openai, strTruthy, msgsTruthy, hak, hm, hmn, hu, hrf0, hrfj, hrft]

theorem claim6_witness :
    call_openai (some ⟨some "k", some [⟨"user", "hi"⟩], some "gpt-4o", some "xml",
      some "u-1", none⟩) (fun _ => Except.ok ⟨"ok", ⟨1, 2, 3⟩⟩) sqliteInsert 2 7 none [] =
      ⟨500, [("error", JVal.s "调用 OpenAI API 失败"),
             ("details", JVal.s "Error response_format")], [], none⟩ :=
  claim6_bad_response_format_500 "k" "gpt-4o" "u-1" "xml" [⟨"user", "hi"⟩] none
    (fun _ => Except.ok ⟨"ok", ⟨1, 2, 3⟩⟩) sqliteInsert 2 7 none []
    (by decide) (by decide) (by decide) (by decide) (by decide) (by decide) (by decide)

/-- C10: a request that explicitly supplies `response_format` with the falsy
value `""` is rejected with HTTP 400 as a missing required parameter, even
though the field is optional with default `"text"`: the handler's falsiness
check covers `response_format` alongside the four required fields. -/
theorem claim10_empty_response_format_400 (ak mn u : String) (msgs : List Message)
    (tOpt : Option Rat) (remote : RemoteCall → Except String RemoteResp)
    (dbInsert : List APICall → APICall → Except String (List APICall))
    (dur : Rat) (ct : Nat) (ra : Option String) (db : List APICall)
    (hak : ak ≠ "") (hm : msgs ≠ []) (hmn : mn ≠ "") (hu : u ≠ "") :
    call_openai (some ⟨some ak, some msgs, some mn, some "", some u, tOpt⟩)
      remote dbInsert dur ct ra db =
      ⟨400, [("error", JVal.s "缺少必要参数")], db, none⟩ := by
  simp [call_openai, strTruthy, msgsTruthy, hak, hm, hmn, hu]

theorem claim10_witness :
    call_openai (some ⟨some "k", some [⟨"user", "hi"⟩], some "gpt-4o", some "",
      some "u-1", none⟩) (fun _ => Except.ok ⟨"ok", ⟨1, 2, 3⟩⟩) sqliteInsert 2 7 none [] =
      ⟨400, [("error", JVal.s "缺少必要参数")], [], none⟩ :=
  claim10_empty_response_format_400 "k" "gpt-4o" "u-1" [⟨"user", "hi"⟩] none
    (fun _ => Except.ok ⟨"ok", ⟨1, 2, 3⟩⟩) sqliteInsert 2 7 none []
    (by decide) (by decide) (by decide) (by decide)

end AppPy

namespace AppPy

theorem escChar_nonascii (c : Char) (hc : 128 ≤ c.toNat) : escChar c = [c] := by
  have h1 : c ≠ '"' := fun h => absurd hc (by subst h; decide)
  have h2 : c ≠ '\\' := fun h => absurd hc (by subst h; decide)
  have h3 : c ≠ '\n' := fun h => absurd hc (by subst h; decide)
  have h4 : c ≠ '\r' := fun h => absurd hc (by subst h; decide)
  have h5 : c ≠ '\t' := fun h => absurd hc (by subst h; decide)
  have h6 : ¬c.toNat = 8 := by omega
  have h7 : ¬c.toNat = 12 := by omega
  have h8 : ¬c.toNat < 32 := by omega
  simp [escChar, h1, h2, h3, h4, h5, h6, h7, h8]

/-- C3: when the remote call succeeds but the database insert fails, the
handler returns HTTP 500 with an error message and a details string, the
database is left unchanged (the rollback leaves no partial record), and the
successful remote reply does not appear in the response body. -/
theorem claim3_db_failure_500 (ak mn u rf e : String) (msgs : List Message) (t : Rat)
    (resp : RemoteResp) (dur : Rat) (ct : Nat) (ra : Option String) (db : List APICall)
    (hak : ak ≠ "") (hm : msgs ≠ []) (hmn : mn ≠ "") (hu : u ≠ "")
    (hrf : rf = "json" ∨ rf = "text") :
    (∃ rc : RemoteCall,
      call_openai (some ⟨some ak, some msgs, some mn, some rf, some u, some t⟩)
        (fun _ => Except.ok resp) (fun _ _ => Except.error e) dur ct ra db =
      ⟨500, [("error", JVal.s "数据库错误"), ("details", JVal.s e)], db, some rc⟩) ∧
    (∀ v : JVal, ("reply", v) ∉
      (call_openai (some ⟨some ak, some msgs, some mn, some rf, some u, some t⟩)
        (fun _ => Except.ok resp) (fun _ _ => Except.error e) dur ct ra db).body) := by
  rcases hrf with rfl | rfl
  · constructor
    · exact ⟨⟨mn, msgs, t, some ⟨"json_object"⟩⟩, by
        rw [call_openai_json_eq ak mn u msgs t _ _ dur ct ra db hak hm hmn hu]⟩
    · intro v
      rw [call_openai_json_eq ak mn u msgs t _ _ dur ct ra db hak hm hmn hu]
      simp [show "reply" ≠ "error" from by decide, show "reply" ≠ "details" from by decide]
  · constructor
    · exact ⟨⟨mn, msgs, t, none⟩, by
        rw [call_openai_text_eq ak mn u msgs t _ _ dur ct ra db hak hm hmn hu]⟩
    · intro v
      rw [call_openai_text_eq ak mn u msgs t _ _ dur ct ra db hak hm hmn hu]
      simp [show "reply" ≠ "error" from by decide, show "reply" ≠ "details" from by decide]

theorem claim3_witness :
    (∃ rc : RemoteCall,
      call_openai (some ⟨some "k", some [⟨"user", "hi"⟩], some "gpt-4o", some "text",
        some "u-1", some 1⟩) (fun _ => Except.ok ⟨"ok", ⟨1, 2, 3⟩⟩)
        (fun _ _ => Except.error "disk full") 2 7 none [] =
      ⟨500, [("error", JVal.s "数据库错误"), ("details", JVal.s "disk full")], [], some rc⟩) ∧
    (∀ v : JVal, ("reply", v) ∉
      (call_openai (some ⟨some "k", some [⟨"user", "hi"⟩], some "gpt-4o", some "text",
        some "u-1", some 1⟩) (fun _ => Except.ok ⟨"ok", ⟨1, 2, 3⟩⟩)
        (fun _ _ => Except.error "disk full") 2 7 none []).body) :=
  claim3_db_failure_500 "k" "gpt-4o" "u-1" "text" "disk full" [⟨"user", "hi"⟩] 1
    ⟨"ok", ⟨1, 2, 3⟩⟩ 2 7 none [] (by decide) (by decide) (by decide) (by decide)
    (Or.inr rfl)

theorem call_openai_success (ak mn u rf : String) (msgs : List Message) (t : Rat)
    (resp : RemoteResp) (dur : Rat) (ct : Nat) (ra : Option String) (db : List APICall)
    (hak : ak ≠ "") (hm : msgs ≠ []) (hmn : mn ≠ "") (hu : u ≠ "")
    (hrf : rf = "json" ∨ rf = "text") :
    ∃ rc : RemoteCall,
      call_openai (some ⟨some ak, some msgs, some mn, some rf, some u, some t⟩)
        (fun _ => Except.ok resp) (fun db' r => Except.ok (db' ++ [r])) dur ct ra db =
      ⟨200, [("reply", JVal.s resp.content),
             ("prompt_tokens", JVal.n resp.usage.prompt_tokens),
             ("completion_tokens", JVal.n resp.usage.completion_tokens),
             ("call_duration", JVal.q dur),
             ("error_flag", JVal.n (if hasNewlineRun resp.content then 1 else 0))],
        db ++ [mkCallRecord u msgs mn rf t resp dur ct (ipOf ra)], some rc⟩ := by
  rcases hrf with rfl | rfl
  · exact ⟨⟨mn, msgs, t, some ⟨"json_object"⟩⟩, by
      rw [call_openai_json_eq ak mn u msgs t _ _ dur ct ra db hak hm hmn hu]⟩
  · exact ⟨⟨mn, msgs, t, none⟩, by
      rw [call_openai_text_eq ak mn u msgs t _ _ dur ct ra db hak hm hmn hu]⟩

/-- C8: when both the remote call and the insert succeed, the handler returns
HTTP 200 and the body is exactly the five keys `reply`, `prompt_tokens`,
`completion_tokens`, `call_duration`, `error_flag`, taken from the remote
response, the measured duration, and the derived flag. -/
theorem claim8_success_response (ak mn u rf : String) (msgs : List Message) (t : Rat)
    (resp : RemoteResp) (dur : Rat) (ct : Nat) (ra : Option String) (db : List APICall)
    (hak : ak ≠ "") (hm : msgs ≠ []) (hmn : mn ≠ "") (hu : u ≠ "")
    (hrf : rf = "json" ∨ rf = "text") :
    ∃ rc : RemoteCall,
      call_openai (some ⟨some ak, some msgs, some mn, some rf, some u, some t⟩)
        (fun _ => Except.ok resp) (fun db' r => Except.ok (db' ++ [r])) dur ct ra db =
      ⟨200, [("reply", JVal.s resp.content),
             ("prompt_tokens", JVal.n resp.usage.prompt_tokens),
             ("completion_tokens", JVal.n resp.usage.completion_tokens),
             ("call_duration", JVal.q dur),
             ("error_flag", JVal.n (if hasNewlineRun resp.content then 1 else 0))],
        db ++ [mkCallRecord u msgs mn rf t resp dur ct (ipOf ra)], some rc⟩ :=
  call_openai_success ak mn u rf msgs t resp dur ct ra db hak hm hmn hu hrf

theorem claim8_witness :
    ∃ rc : RemoteCall,
      call_openai (some ⟨some "k", some [⟨"user", "hi"⟩], some "gpt-4o", some "text",
        some "u-1", some 1⟩) (fun _ => Except.ok ⟨"ok", ⟨1, 2, 3⟩⟩)
        (fun db' r => Except.ok (db' ++ [r])) 2 7 none [] =
      ⟨200, [("reply", JVal.s (⟨"ok", ⟨1, 2, 3⟩⟩ : RemoteResp).content),
             ("prompt_tokens", JVal.n (⟨"ok", ⟨1, 2, 3⟩⟩ : RemoteResp).usage.prompt_tokens),
             ("completion_tokens", JVal.n (⟨"ok", ⟨1, 2, 3⟩⟩ : RemoteResp).usage.completion_tokens),
             ("call_duration", JVal.q 2),
             ("error_flag", JVal.n (if hasNewlineRun (⟨"ok", ⟨1, 2, 3⟩⟩ : RemoteResp).content then 1 else 0))],
        [] ++ [mkCallRecord "u-1" [⟨"user", "hi"⟩] "gpt-4o" "text" 1 ⟨"ok", ⟨1, 2, 3⟩⟩ 2 7 (ipOf none)],
        some rc⟩ :=
  claim8_success_response "k" "gpt-4o" "u-1" "text" [⟨"user", "hi"⟩] 1
    ⟨"ok", ⟨1, 2, 3⟩⟩ 2 7 none [] (by decide) (by decide) (by decide) (by decide)
    (Or.inr rfl)

/-- C1: `error_flag` is 1 exactly when the reply contains a run of four or
more consecutive newline or carriage-return characters (mixed runs allowed),
and on the success path this same flag value is stored in the persisted
record and returned in the response body. -/
theorem claim1_error_flag (reply ak mn u rf : String) (msgs : List Message) (t : Rat)
    (resp : RemoteResp) (dur : Rat) (ct : Nat) (ra : Option String) (db : List APICall)
    (hak : ak ≠ "") (hm : msgs ≠ []) (hmn : mn ≠ "") (hu : u ≠ "")
    (hrf : rf = "json" ∨ rf = "text") :
    (hasNewlineRun reply = true ↔
      ∃ l : List Char, 4 ≤ l.length ∧ (∀ c ∈ l, c = '\n' ∨ c = '\r') ∧
        ∃ p q, reply.data = p ++ l ++ q) ∧
    ((mkCallRecord u msgs mn rf t resp dur ct (ipOf ra)).error_flag =
      (if hasNewlineRun resp.content then 1 else 0)) ∧
    (∃ rc : RemoteCall,
      call_openai (some ⟨some ak, some msgs, some mn, some rf, some u, some t⟩)
        (fun _ => Except.ok resp) (fun db' r => Except.ok (db' ++ [r])) dur ct ra db =
      ⟨200, [("reply", JVal.s resp.content),
             ("prompt_tokens", JVal.n resp.usage.prompt_tokens),
             ("completion_tokens", JVal.n resp.usage.completion_tokens),
             ("call_duration", JVal.q dur),
             ("error_flag", JVal.n (if hasNewlineRun resp.content then 1 else 0))],
        db ++ [mkCallRecord u msgs mn rf t resp dur ct (ipOf ra)], some rc⟩) :=
  ⟨hasNewlineRun_iff reply, rfl,
    call_openai_success ak mn u rf msgs t resp dur ct ra db hak hm hmn hu hrf⟩

end AppPy

namespace AppPy

theorem claim1_witness :
    (hasNewlineRun "a\n\n\n\nb" = true ↔
      ∃ l : List Char, 4 ≤ l.length ∧ (∀ c ∈ l, c = '\n' ∨ c = '\r') ∧
        ∃ p q, ("a\n\n\n\nb" : String).data = p ++ l ++ q) ∧
    ((mkCallRecord "u-1" [⟨"user", "hi"⟩] "gpt-4o" "text" 1 ⟨"a\n\n\n\nb", ⟨1, 2, 3⟩⟩ 2 7
        (ipOf none)).error_flag =
      (if hasNewlineRun (⟨"a\n\n\n\nb", ⟨1, 2, 3⟩⟩ : RemoteResp).content then 1 else 0)) ∧
    (∃ rc : RemoteCall,
      call_openai (some ⟨some "k", some [⟨"user", "hi"⟩], some "gpt-4o", some "text",
        some "u-1", some 1⟩) (fun _ => Except.ok ⟨"a\n\n\n\nb", ⟨1, 2, 3⟩⟩)
        (fun db' r => Except.ok (db' ++ [r])) 2 7 none [] =
      ⟨200, [("reply", JVal.s (⟨"a\n\n\n\nb", ⟨1, 2, 3⟩⟩ : RemoteResp).content),
             ("prompt_tokens", JVal.n (⟨"a\n\n\n\nb", ⟨1, 2, 3⟩⟩ : RemoteResp).usage.prompt_tokens),
             ("completion_tokens", JVal.n (⟨"a\n\n\n\nb", ⟨1, 2, 3⟩⟩ : RemoteResp).usage.completion_tokens),
             ("call_duration", JVal.q 2),
             ("error_flag", JVal.n (if hasNewlineRun (⟨"a\n\n\n\nb", ⟨1, 2, 3⟩⟩ : RemoteResp).content then 1 else 0))],
        [] ++ [mkCallRecord "u-1" [⟨"user", "hi"⟩] "gpt-4o" "text" 1 ⟨"a\n\n\n\nb", ⟨1, 2, 3⟩⟩ 2 7 (ipOf none)],
        some rc⟩) :=
  claim1_error_flag "a\n\n\n\nb" "k" "gpt-4o" "u-1" "text" [⟨"user", "hi"⟩] 1
    ⟨"a\n\n\n\nb", ⟨1, 2, 3⟩⟩ 2 7 none [] (by decide) (by decide) (by decide) (by decide)
    (Or.inr rfl)

/-- C7: on the success path the persisted record stores `messages` as the
`ensure_ascii=False` JSON encoding; JSON-decoding that stored string
reproduces the original role/content array, and non-ASCII characters are
stored literally, never escaped. -/
theorem claim7_messages_roundtrip (ak mn u rf : String) (msgs : List Message) (t : Rat)
    (resp : RemoteResp) (dur : Rat) (ct : Nat) (ra : Option String) (db : List APICall)
    (hak : ak ≠ "") (hm : msgs ≠ []) (hmn : mn ≠ "") (hu : u ≠ "")
    (hrf : rf = "json" ∨ rf = "text") :
    ((call_openai (some ⟨some ak, some msgs, some mn, some rf, some u, some t⟩)
        (fun _ => Except.ok resp) (fun db' r => Except.ok (db' ++ [r])) dur ct ra db).db =
      db ++ [mkCallRecord u msgs mn rf t resp dur ct (ipOf ra)]) ∧
    (mkCallRecord u msgs mn rf t resp dur ct (ipOf ra)).messages = encodeMessages msgs ∧
    decodeMessages (encodeMessages msgs) = some msgs ∧
    (∀ c : Char, 128 ≤ c.toNat → escChar c = [c]) := by
  obtain ⟨rc, hrc⟩ := call_openai_success ak mn u rf msgs t resp dur ct ra db hak hm hmn hu hrf
  exact ⟨by rw [hrc], rfl, decode_encode msgs, fun c hc => escChar_nonascii c hc⟩

theorem claim7_witness :
    ((call_openai (some ⟨some "k", some [⟨"user", "你好"⟩], some "gpt-4o", some "text",
        some "u-1", some 1⟩) (fun _ => Except.ok ⟨"ok", ⟨1, 2, 3⟩⟩)
        (fun db' r => Except.ok (db' ++ [r])) 2 7 none []).db =
      [] ++ [mkCallRecord "u-1" [⟨"user", "你好"⟩] "gpt-4o" "text" 1 ⟨"ok", ⟨1, 2, 3⟩⟩ 2 7 (ipOf none)]) ∧
    (mkCallRecord "u-1" [⟨"user", "你好"⟩] "gpt-4o" "text" 1 ⟨"ok", ⟨1, 2, 3⟩⟩ 2 7
        (ipOf none)).messages = encodeMessages [⟨"user", "你好"⟩] ∧
    decodeMessages (encodeMessages [⟨"user", "你好"⟩]) = some [⟨"user", "你好"⟩] ∧
    (∀ c : Char, 128 ≤ c.toNat → escChar c = [c]) :=
  claim7_messages_roundtrip "k" "gpt-4o" "u-1" "text" [⟨"user", "你好"⟩] 1
    ⟨"ok", ⟨1, 2, 3⟩⟩ 2 7 none [] (by decide) (by decide) (by decide) (by decide)
    (Or.inr rfl)

/-- C9: the handler reads `total_tokens` from the remote response but never
passes it to the record constructor, so every record the handler adds has a
null `total_tokens` column, and `total_tokens` never appears among the keys of
any response body. -/
theorem claim9_total_tokens_null (d? : Option ReqData)
    (remote : RemoteCall → Except String RemoteResp)
    (dur : Rat) (ct : Nat) (ra : Option String) (db : List APICall) :
    (∀ record ∈ (call_openai d? remote sqliteInsert dur ct ra db).db,
      record ∈ db ∨ record.total_tokens = none) ∧
    (∀ v : JVal, ("total_tokens", v) ∉
      (call_openai d? remote sqliteInsert dur ct ra db).body) := by
  rcases call_openai_enum d? remote sqliteInsert dur ct ra db with
    ⟨msg, h⟩ | h | ⟨e, rc, h⟩ | ⟨e, rc, record, hD, htt, h⟩ |
    ⟨resp, db2, rc, record, htt, hD, h⟩
  · rw [h]
    exact ⟨fun r hr => Or.inl hr, by
      simp [show "total_tokens" ≠ "error" from by decide]⟩
  · rw [h]
    exact ⟨fun r hr => Or.inl hr, by
      simp [show "total_tokens" ≠ "error" from by decide,
        show "total_tokens" ≠ "details" from by decide]⟩
  · rw [h]
    exact ⟨fun r hr => Or.inl hr, by
      simp [show "total_tokens" ≠ "error" from by decide,
        show "total_tokens" ≠ "details" from by decide]⟩
  · rw [h]
    exact ⟨fun r hr => Or.inl hr, by
      simp [show "total_tokens" ≠ "error" from by decide,
        show "total_tokens" ≠ "details" from by decide]⟩
  · obtain ⟨hfresh, rfl⟩ := sqliteInsert_ok db record db2 hD
    rw [h]
    constructor
    · intro r hr
      rcases List.mem_append.mp hr with hr | hr
      · exact Or.inl hr
      · rw [List.mem_singleton.mp hr]
        exact Or.inr htt
    · intro v
      simp [show "total_tokens" ≠ "reply" from by decide,
        show "total_tokens" ≠ "prompt_tokens" from by decide,
        show "total_tokens" ≠ "completion_tokens" from by decide,
        show "total_tokens" ≠ "call_duration" from by decide,
        show "total_tokens" ≠ "error_flag" from by decide]

/-- C5: `uuid` is the primary key: with the constraint-checking insert, a
request never raises the number of rows holding a given `uuid` above one, and
a second well-formed request reusing an already-stored `uuid` fails at
persistence, returns HTTP 500, and leaves exactly one row with that `uuid`. -/
theorem claim5_uuid_primary_key (ak mn u rf : String) (msgs : List Message) (t dur : Rat)
    (resp : RemoteResp) (ct : Nat) (ra : Option String) (db : List APICall)
    (hak : ak ≠ "") (hm : msgs ≠ []) (hmn : mn ≠ "") (hu : u ≠ "")
    (hrf : rf = "json" ∨ rf = "text") :
    (∀ (d? : Option ReqData) (remote : RemoteCall → Except String RemoteResp),
      uuidCount u (call_openai d? remote sqliteInsert dur ct ra db).db ≤
        max (uuidCount u db) 1) ∧
    (uuidCount u db = 1 →
      (call_openai (some ⟨some ak, some msgs, some mn, some rf, some u, some t⟩)
        (fun _ => Except.ok resp) sqliteInsert dur ct ra db).status = 500 ∧
      uuidCount u (call_openai (some ⟨some ak, some msgs, some mn, some rf, some u, some t⟩)
        (fun _ => Except.ok resp) sqliteInsert dur ct ra db).db = 1) := by
  constructor
  · intro d? remote
    rcases call_openai_enum d? remote sqliteInsert dur ct ra db with
      ⟨msg, h⟩ | h | ⟨e, rc, h⟩ | ⟨e, rc, record, hD, htt, h⟩ |
      ⟨resp2, db2, rc, record, htt, hD, h⟩
    · rw [h]; exact le_max_left _ _
    · rw [h]; exact le_max_left _ _
    · rw [h]; exact le_max_left _ _
    · rw [h]; exact le_max_left _ _
    · obtain ⟨hfresh, rfl⟩ := sqliteInsert_ok db record db2 hD
      rw [h]
      show uuidCount u (db ++ [record]) ≤ max (uuidCount u db) 1
      rw [uuidCount_append_one]
      by_cases hru : record.uuid = u
      · have h0 : uuidCount u db = 0 :=
          uuidCount_eq_zero_of u db (fun r hr => hru ▸ hfresh r hr)
        simp [h0, hru]
      · simp [hru]
  · intro h1
    have hex : ∃ r ∈ db, r.uuid = u := by
      cases hfil : db.filter (fun r => r.uuid == u) with
      | nil => rw [uuidCount, hfil] at h1; simp at h1
      | cons r rest =>
        have hr : r ∈ db.filter (fun r => r.uuid == u) := by rw [hfil]; exact List.mem_cons_self r rest
        have := List.mem_filter.mp hr
        exact ⟨r, this.1, by simpa using this.2⟩
    obtain ⟨r, hrdb, hru⟩ := hex
    have hins : sqliteInsert db (mkCallRecord u msgs mn rf t resp dur ct (ipOf ra)) =
        Except.error "UNIQUE constraint failed: api_calls.uuid" :=
      sqliteInsert_error_of_mem db _ r hrdb (by simpa using hru)
    rcases hrf with rfl | rfl
    · have key := call_openai_json_eq ak mn u msgs t (fun _ => Except.ok resp)
        sqliteInsert dur ct ra db hak hm hmn hu
      rw [key]
      dsimp only
      rw [hins]
      exact ⟨rfl, h1⟩
    · have key := call_openai_text_eq ak mn u msgs t (fun _ => Except.ok resp)
        sqliteInsert dur ct ra db hak hm hmn hu
      rw [key]
      dsimp only
      rw [hins]
      exact ⟨rfl, h1⟩

end AppPy

namespace AppPy

theorem claim5_witness :
    (∀ (d? : Option ReqData) (remote : RemoteCall → Except String RemoteResp),
      uuidCount "u-1" (call_openai d? remote sqliteInsert 2 7 none
        [mkCallRecord "u-1" [⟨"user", "hi"⟩] "gpt-4o" "text" 1 ⟨"ok", ⟨1, 2, 3⟩⟩ 2 7
          (ipOf none)]).db ≤
        max (uuidCount "u-1" [mkCallRecord "u-1" [⟨"user", "hi"⟩] "gpt-4o" "text" 1
          ⟨"ok", ⟨1, 2, 3⟩⟩ 2 7 (ipOf none)]) 1) ∧
    (uuidCount "u-1" [mkCallRecord "u-1" [⟨"user", "hi"⟩] "gpt-4o" "text" 1
        ⟨"ok", ⟨1, 2, 3⟩⟩ 2 7 (ipOf none)] = 1 →
      (call_openai (some ⟨some "k", some [⟨"user", "hi"⟩], some "gpt-4o", some "text",
        some "u-1", some 1⟩) (fun _ => Except.ok ⟨"ok", ⟨1, 2, 3⟩⟩) sqliteInsert 2 7 none
        [mkCallRecord "u-1" [⟨"user", "hi"⟩] "gpt-4o" "text" 1 ⟨"ok", ⟨1, 2, 3⟩⟩ 2 7
          (ipOf none)]).status = 500 ∧
      uuidCount "u-1" (call_openai (some ⟨some "k", some [⟨"user", "hi"⟩], some "gpt-4o",
        some "text", some "u-1", some 1⟩) (fun _ => Except.ok ⟨"ok", ⟨1, 2, 3⟩⟩)
        sqliteInsert 2 7 none
        [mkCallRecord "u-1" [⟨"user", "hi"⟩] "gpt-4o" "text" 1 ⟨"ok", ⟨1, 2, 3⟩⟩ 2 7
          (ipOf none)]).db = 1) :=
  claim5_uuid_primary_key "k" "gpt-4o" "u-1" "text" [⟨"user", "hi"⟩] 1 2
    ⟨"ok", ⟨1, 2, 3⟩⟩ 7 none
    [mkCallRecord "u-1" [⟨"user", "hi"⟩] "gpt-4o" "text" 1 ⟨"ok", ⟨1, 2, 3⟩⟩ 2 7 (ipOf none)]
    (by decide) (by decide) (by decide) (by decide) (Or.inr rfl)

end AppPy
